import Mathlib

/-!
Verification of the VeaxFlow liquidity-pool adjustment engine
(src/src/veaxflow_agent/main.py), shallowly embedded over ℚ.

Python floats are modelled as exact rationals; Python `int(x)` (truncation
toward zero) is modelled by `pyInt`.
-/

namespace Veaxflow

/-- Python `int(x)` on a real-valued argument truncates toward zero. -/
def pyInt (q : ℚ) : ℤ :=
  if 0 ≤ q then ⌊q⌋ else ⌈q⌉

/-- A pool record as returned by the pool-listing feed, with the decimal
strings already parsed (string parsing is plumbing outside the core). -/
structure PoolData where
  token_a : String
  token_b : String
  reserve_a : ℤ
  reserve_b : ℤ
  spot_price : ℚ
  liquidities : List ℚ
deriving DecidableEq

/-- `LiquidityPool`: the mutable pool state (class `LiquidityPool` in
main.py). -/
structure LiquidityPool where
  token_a : String
  token_b : String
  reserve_a : ℤ
  reserve_b : ℤ
  spot_price : ℚ
  fee_tier : ℚ
  price_range : ℚ × ℚ
  total_liquidity : ℚ
  pair_id : String
deriving DecidableEq

/-- `LiquidityPool.__init__`: construct the pool state from a snapshot.
Fee defaults to 0.3, the range to ±5% around the spot price, and
`total_liquidity` sums the non-zero liquidity entries. -/
def LiquidityPool.init (pool_data : PoolData) : LiquidityPool where
  token_a := pool_data.token_a
  token_b := pool_data.token_b
  reserve_a := pool_data.reserve_a
  reserve_b := pool_data.reserve_b
  spot_price := pool_data.spot_price
  fee_tier := 3/10
  price_range := (pool_data.spot_price * (95/100), pool_data.spot_price * (105/100))
  total_liquidity := (pool_data.liquidities.filter (fun l => decide (l ≠ 0))).sum
  pair_id := pool_data.token_a ++ "-" ++ pool_data.token_b

/-- The volume DataFrame, abstracted to what `ai_agent` inspects:
whether it is empty, and the `volume` column when present. -/
structure VolumeData where
  isEmpty : Bool
  volume : Option (List ℚ)

/-- `volume_data["volume"].mean() if not volume_data.empty and "volume" in
volume_data else 5_000_000` (main.py lines 82–86). -/
def VolumeData.avgVolume (d : VolumeData) : ℚ :=
  match d.isEmpty, d.volume with
  | false, some vs => vs.sum / (vs.length : ℚ)
  | _, _ => 5000000

/-- The `$700/hour` decision threshold (main.py line 87). -/
def threshold : ℚ := 700

/-- Everything one `ai_agent` invocation produces: the returned
`(new_fee, new_range)` pair, the printed yield estimate, and the mutated
pool state. -/
structure AgentResult where
  new_fee : ℚ
  new_range : ℚ × ℚ
  yield_estimate : ℚ
  pool : LiquidityPool
deriving DecidableEq

/-- The body of `ai_agent` (main.py lines 87–119) after `avg_volume` has
been computed: fee optimisation, reserve boost on the high-volume branch,
range adjustment, yield estimate, and the writeback of `fee_tier` and
`price_range`. -/
def ai_agentStep (pool : LiquidityPool) (avg_volume : ℚ) : AgentResult :=
  let new_fee :=
    if avg_volume ≥ threshold then max (5/100) (pool.fee_tier - 1/10)
    else min 1 (pool.fee_tier + 1/10)
  let reserve_a :=
    if avg_volume ≥ threshold then pyInt ((pool.reserve_a : ℚ) * (11/10))
    else pool.reserve_a
  let reserve_b :=
    if avg_volume ≥ threshold then pyInt ((pool.reserve_b : ℚ) * (11/10))
    else pool.reserve_b
  let lower := pool.price_range.1
  let upper := pool.price_range.2
  let new_range :=
    if avg_volume ≥ threshold then (lower * (95/100), upper * (105/100))
    else (lower + 2/100, upper - 2/100)
  let yield_estimate := (new_fee / 100) * avg_volume
  { new_fee := new_fee
    new_range := new_range
    yield_estimate := yield_estimate
    pool := { pool with
                fee_tier := new_fee
                price_range := new_range
                reserve_a := reserve_a
                reserve_b := reserve_b } }

/-- `ai_agent(pool, volume_data)` (main.py lines 78–119): compute
`avg_volume` from the DataFrame (with the internal 5,000,000 fallback)
and run the adjustment step. -/
def ai_agent (pool : LiquidityPool) (volume_data : VolumeData) : AgentResult :=
  ai_agentStep pool volume_data.avgVolume

/-- Repeated engine invocations: fold the adjustment step over a list of
average-volume signals, keeping only the mutated pool state. -/
def runAgent (pool : LiquidityPool) (vols : List ℚ) : LiquidityPool :=
  vols.foldl (fun p v => (ai_agentStep p v).pool) pool

/-- A concrete pool state matching the worked example in the spec:
fee 0.3, spot price 5, range (4.75, 5.25). -/
def samplePool : LiquidityPool where
  token_a := "wrap.near"
  token_b := "usdt.tether-token.near"
  reserve_a := 1000000
  reserve_b := 500
  spot_price := 5
  fee_tier := 3/10
  price_range := (19/4, 21/4)
  total_liquidity := 0
  pair_id := "wrap.near-usdt.tether-token.near"

/-- A concrete snapshot for instantiating theorems. -/
def samplePoolData : PoolData where
  token_a := "wrap.near"
  token_b := "usdt.tether-token.near"
  reserve_a := 1000000
  reserve_b := 500
  spot_price := 5
  liquidities := [100, 0, 200]

/-- A pool whose reserves are 8 units, where truncation and rounding of
the 1.1-scaled reserve differ (8.8 truncates to 8, rounds to 9). -/
def poolRes8 : LiquidityPool :=
  { samplePool with reserve_a := 8, reserve_b := 8 }

/-- A pool whose price range has width exactly 0.04. -/
def poolWidth4 : LiquidityPool :=
  { samplePool with price_range := (1, 26/25) }

/-- A pool whose price range has width 0.03 (< 0.04). -/
def poolNarrow : LiquidityPool :=
  { samplePool with price_range := (1, 103/100) }

/-- A pool whose fee sits at the 0.05 floor. -/
def poolFloor : LiquidityPool :=
  { samplePool with fee_tier := 5/100 }

/-- A pool whose fee sits at the 1.0 ceiling. -/
def poolCeil : LiquidityPool :=
  { samplePool with fee_tier := 1 }

/- Sanity checks against the worked examples in the spec. -/

example : (ai_agentStep samplePool 1000).new_fee = 2/10 := by
  norm_num [ai_agentStep, samplePool, threshold]

example : (ai_agentStep samplePool 1000).new_range = (361/80, 441/80) := by
  norm_num [ai_agentStep, samplePool, threshold]

example : (ai_agentStep samplePool 1000).yield_estimate = 2 := by
  norm_num [ai_agentStep, samplePool, threshold]

example : (ai_agentStep samplePool 300).new_fee = 4/10 := by
  norm_num [ai_agentStep, samplePool, threshold]

example : (ai_agentStep samplePool 300).new_range = (477/100, 523/100) := by
  norm_num [ai_agentStep, samplePool, threshold]

/-- C1: for every pool state and every `avg_volume ≥ 700` (boundary
included), one invocation sets `fee_tier` to `max(0.05, old_fee - 0.1)`
and sets `price_range` to `(old_lower * 0.95, old_upper * 1.05)`. -/
theorem C1_high_volume_fee_and_range (pool : LiquidityPool) (avg_volume : ℚ)
    (h : 700 ≤ avg_volume) :
    (ai_agentStep pool avg_volume).pool.fee_tier
        = max (5/100) (pool.fee_tier - 1/10) ∧
    (ai_agentStep pool avg_volume).pool.price_range
        = (pool.price_range.1 * (95/100), pool.price_range.2 * (105/100)) := by
  have hge : avg_volume ≥ threshold := by simpa [threshold] using h
  simp [ai_agentStep, hge]

/-- Witness for C1 at the spec's worked example (`avg_volume = 1000`). -/
theorem C1_high_volume_fee_and_range_witness :
    (ai_agentStep samplePool 1000).pool.fee_tier
        = max (5/100) (samplePool.fee_tier - 1/10) ∧
    (ai_agentStep samplePool 1000).pool.price_range
        = (samplePool.price_range.1 * (95/100), samplePool.price_range.2 * (105/100)) :=
  C1_high_volume_fee_and_range samplePool 1000 (by norm_num)

/-- C2: for every pool state and every `avg_volume < 700`, one invocation
sets `fee_tier` to `min(1.0, old_fee + 0.1)`, leaves both reserves
unchanged, and sets `price_range` to
`(old_lower + 0.02, old_upper - 0.02)`. -/
theorem C2_low_volume_step (pool : LiquidityPool) (avg_volume : ℚ)
    (h : avg_volume < 700) :
    (ai_agentStep pool avg_volume).pool.fee_tier
        = min 1 (pool.fee_tier + 1/10) ∧
    (ai_agentStep pool avg_volume).pool.reserve_a = pool.reserve_a ∧
    (ai_agentStep pool avg_volume).pool.reserve_b = pool.reserve_b ∧
    (ai_agentStep pool avg_volume).pool.price_range
        = (pool.price_range.1 + 2/100, pool.price_range.2 - 2/100) := by
  have hlt : ¬ (avg_volume ≥ threshold) := by
    simp only [threshold, ge_iff_le, not_le]
    exact h
  simp [ai_agentStep, hlt]

/-- Witness for C2 at the spec's worked example (`avg_volume = 300`). -/
theorem C2_low_volume_step_witness :
    (ai_agentStep samplePool 300).pool.fee_tier
        = min 1 (samplePool.fee_tier + 1/10) ∧
    (ai_agentStep samplePool 300).pool.reserve_a = samplePool.reserve_a ∧
    (ai_agentStep samplePool 300).pool.reserve_b = samplePool.reserve_b ∧
    (ai_agentStep samplePool 300).pool.price_range
        = (samplePool.price_range.1 + 2/100, samplePool.price_range.2 - 2/100) :=
  C2_low_volume_step samplePool 300 (by norm_num)

/-- C3 counterexample: the high-volume branch does not round the scaled
reserves to the nearest integer. At reserves of 8 units, 8 × 1.1 = 8.8;
the code stores `int(8.8) = 8`, while rounding to nearest gives 9. -/
theorem C3_counterexample :
    ¬ ((ai_agentStep poolRes8 1000).pool.reserve_a
        = round ((poolRes8.reserve_a : ℚ) * (11/10))) := by
  have hcode : (ai_agentStep poolRes8 1000).pool.reserve_a = 8 := by
    norm_num [ai_agentStep, poolRes8, samplePool, threshold, pyInt]
  have hround : round ((poolRes8.reserve_a : ℚ) * (11/10)) = 9 := by
    norm_num [poolRes8, samplePool, round_eq]
  rw [hcode, hround]
  decide

/-- C3 amended: for every pool state with non-negative integer reserves
and every `avg_volume ≥ 700`, after one invocation `reserve_a` equals
`⌊old_reserve_a × 1.1⌋` and `reserve_b` equals `⌊old_reserve_b × 1.1⌋`:
the scaled reserves are truncated toward zero (the floor, for
non-negative values), not rounded to nearest. -/
theorem C3_reserves_truncated (pool : LiquidityPool) (avg_volume : ℚ)
    (h : 700 ≤ avg_volume)
    (ha : 0 ≤ pool.reserve_a) (hb : 0 ≤ pool.reserve_b) :
    (ai_agentStep pool avg_volume).pool.reserve_a
        = ⌊(pool.reserve_a : ℚ) * (11/10)⌋ ∧
    (ai_agentStep pool avg_volume).pool.reserve_b
        = ⌊(pool.reserve_b : ℚ) * (11/10)⌋ := by
  have hge : avg_volume ≥ threshold := by simpa [threshold] using h
  have hqa : (0 : ℚ) ≤ (pool.reserve_a : ℚ) * (11/10) := by
    have : (0 : ℚ) ≤ (pool.reserve_a : ℚ) := by exact_mod_cast ha
    positivity
  have hqb : (0 : ℚ) ≤ (pool.reserve_b : ℚ) * (11/10) := by
    have : (0 : ℚ) ≤ (pool.reserve_b : ℚ) := by exact_mod_cast hb
    positivity
  simp [ai_agentStep, hge, pyInt, hqa, hqb]

/-- Witness for the amended C3 at reserves of 8 units. -/
theorem C3_reserves_truncated_witness :
    (ai_agentStep poolRes8 1000).pool.reserve_a
        = ⌊(poolRes8.reserve_a : ℚ) * (11/10)⌋ ∧
    (ai_agentStep poolRes8 1000).pool.reserve_b
        = ⌊(poolRes8.reserve_b : ℚ) * (11/10)⌋ :=
  C3_reserves_truncated poolRes8 1000 (by norm_num)
    (by norm_num [poolRes8, samplePool]) (by norm_num [poolRes8, samplePool])

/-- Unfolding `runAgent` over a cons cell. -/
theorem runAgent_cons (pool : LiquidityPool) (v : ℚ) (vs : List ℚ) :
    runAgent pool (v :: vs) = runAgent (ai_agentStep pool v).pool vs := rfl

/-- One adjustment step keeps the fee within `[0.05, 1.0]` whenever it
started there. -/
theorem fee_step_bounds (pool : LiquidityPool) (v : ℚ)
    (h1 : 5/100 ≤ pool.fee_tier) (h2 : pool.fee_tier ≤ 1) :
    5/100 ≤ (ai_agentStep pool v).pool.fee_tier ∧
    (ai_agentStep pool v).pool.fee_tier ≤ 1 := by
  by_cases hv : v ≥ threshold
  · simp only [ai_agentStep, hv, if_pos]
    constructor
    · exact le_max_left _ _
    · exact max_le (by norm_num) (by linarith)
  · simp only [ai_agentStep, hv, if_neg, if_false]
    constructor
    · exact le_min (by norm_num) (by linarith)
    · exact min_le_left _ _

/-- Any finite sequence of adjustment steps keeps the fee within
`[0.05, 1.0]` whenever it started there. -/
theorem runAgent_fee_bounds (vols : List ℚ) (pool : LiquidityPool)
    (h1 : 5/100 ≤ pool.fee_tier) (h2 : pool.fee_tier ≤ 1) :
    5/100 ≤ (runAgent pool vols).fee_tier ∧
    (runAgent pool vols).fee_tier ≤ 1 := by
  induction vols generalizing pool with
  | nil => exact ⟨h1, h2⟩
  | cons v vs ih =>
      rw [runAgent_cons]
      obtain ⟨b1, b2⟩ := fee_step_bounds pool v h1 h2
      exact ih _ b1 b2

/-- C4: starting from a freshly constructed pool state, for every finite
sequence of invocations with non-negative average volumes, the invariant
`0.05 ≤ fee_tier ≤ 1.0` holds after every invocation (every sequence of
signals, hence every prefix of a run, is covered). -/
theorem C4_fee_invariant (pool_data : PoolData) (vols : List ℚ)
    (hvols : ∀ v ∈ vols, 0 ≤ v) :
    5/100 ≤ (runAgent (LiquidityPool.init pool_data) vols).fee_tier ∧
    (runAgent (LiquidityPool.init pool_data) vols).fee_tier ≤ 1 :=
  runAgent_fee_bounds vols (LiquidityPool.init pool_data)
    (by norm_num [LiquidityPool.init]) (by norm_num [LiquidityPool.init])

/-- Witness for C4 on a concrete snapshot and a two-step run. -/
theorem C4_fee_invariant_witness :
    5/100 ≤ (runAgent (LiquidityPool.init samplePoolData) [1000, 300]).fee_tier ∧
    (runAgent (LiquidityPool.init samplePoolData) [1000, 300]).fee_tier ≤ 1 :=
  C4_fee_invariant samplePoolData [1000, 300] (by intro v hv; fin_cases hv <;> norm_num)

/-- The price range after `n` consecutive low-volume steps (volume 0):
the lower bound gains `0.02 n`, the upper bound loses `0.02 n`. -/
theorem runAgent_low_range (n : ℕ) (pool : LiquidityPool) :
    (runAgent pool (List.replicate n 0)).price_range
      = (pool.price_range.1 + n * (2/100), pool.price_range.2 - n * (2/100)) := by
  induction n generalizing pool with
  | zero => simp [runAgent]
  | succ k ih =>
      rw [List.replicate_succ, runAgent_cons, ih]
      have hlow : ¬ ((0 : ℚ) ≥ threshold) := by norm_num [threshold]
      simp only [ai_agentStep, hlow, if_neg, if_false, Prod.mk.injEq]
      constructor
      · push_cast; ring
      · push_cast; ring

/-- C5 counterexample: a pool whose range width is exactly 0.04 does not
reach inversion (`lower > upper`) in one low-volume step — the bounds
merely become equal. -/
theorem C5_counterexample :
    poolWidth4.price_range.1 < poolWidth4.price_range.2 ∧
    poolWidth4.price_range.2 - poolWidth4.price_range.1 ≤ 4/100 ∧
    ¬ ((ai_agentStep poolWidth4 0).pool.price_range.2
        < (ai_agentStep poolWidth4 0).pool.price_range.1) := by
  refine ⟨by norm_num [poolWidth4, samplePool], by norm_num [poolWidth4, samplePool], ?_⟩
  norm_num [ai_agentStep, poolWidth4, samplePool, threshold]

/-- C5 amended: the step relation does not preserve the range ordering:
every pool state with `lower < upper` reaches `lower > upper` after
finitely many consecutive low-volume invocations; and any state whose
range width is strictly less than 0.04 (rather than at most 0.04)
reaches inversion in one low-volume step. -/
theorem C5_range_inversion :
    (∀ pool : LiquidityPool, pool.price_range.1 < pool.price_range.2 →
      ∃ vols : List ℚ, (∀ v ∈ vols, v < 700) ∧
        (runAgent pool vols).price_range.2 < (runAgent pool vols).price_range.1) ∧
    (∀ (pool : LiquidityPool) (v : ℚ), v < 700 →
      pool.price_range.2 - pool.price_range.1 < 4/100 →
      (ai_agentStep pool v).pool.price_range.2
        < (ai_agentStep pool v).pool.price_range.1) := by
  constructor
  · intro pool _
    set w : ℚ := pool.price_range.2 - pool.price_range.1 with hw
    set n : ℕ := ⌈w / (4/100)⌉₊ + 1 with hn
    refine ⟨List.replicate n 0, ?_, ?_⟩
    · intro v hv
      rw [List.eq_of_mem_replicate hv]
      norm_num
    · rw [runAgent_low_range]
      have hceil : w / (4/100) ≤ (⌈w / (4/100)⌉₊ : ℚ) := Nat.le_ceil _
      have hwlt : w < (n : ℚ) * (4/100) := by
        have : w ≤ (⌈w / (4/100)⌉₊ : ℚ) * (4/100) := by
          rw [div_le_iff₀ (by norm_num : (0:ℚ) < 4/100)] at hceil
          linarith
        have hcast : ((n : ℚ)) = (⌈w / (4/100)⌉₊ : ℚ) + 1 := by
          rw [hn]; push_cast; ring
        rw [hcast]
        linarith
      rw [hw] at hwlt
      linarith
  · intro pool v hv hw
    have hlow : ¬ (v ≥ threshold) := by
      simp only [threshold, ge_iff_le, not_le]
      exact hv
    simp only [ai_agentStep, hlow, if_neg, if_false]
    linarith

/-- Witness for the amended C5: a width-0.03 range inverts in one
low-volume step. -/
theorem C5_range_inversion_witness :
    (0 : ℚ) < 700 ∧
    poolNarrow.price_range.2 - poolNarrow.price_range.1 < 4/100 ∧
    (ai_agentStep poolNarrow 0).pool.price_range.2
      < (ai_agentStep poolNarrow 0).pool.price_range.1 :=
  ⟨by norm_num, by norm_num [poolNarrow, samplePool],
    C5_range_inversion.2 poolNarrow 0 (by norm_num)
      (by norm_num [poolNarrow, samplePool])⟩

/-- C6: for every pool state and every non-negative `avg_volume`, on both
branches the yield estimate equals `(new_fee / 100) × avg_volume`, where
`new_fee` is the fee produced by the same invocation. -/
theorem C6_yield_estimate (pool : LiquidityPool) (avg_volume : ℚ)
    (hnn : 0 ≤ avg_volume) :
    (ai_agentStep pool avg_volume).yield_estimate
      = ((ai_agentStep pool avg_volume).new_fee / 100) * avg_volume := rfl

/-- Witness for C6 at the spec's worked example. -/
theorem C6_yield_estimate_witness :
    (ai_agentStep samplePool 1000).yield_estimate
      = ((ai_agentStep samplePool 1000).new_fee / 100) * 1000 :=
  C6_yield_estimate samplePool 1000 (by norm_num)

/-- C7: the fee clamps are idempotent at the bounds: from `fee_tier =
0.05`, any run of high-volume invocations leaves it at 0.05; from
`fee_tier = 1.0`, any run of low-volume invocations leaves it at 1.0. -/
theorem C7_clamp_idempotent :
    (∀ (pool : LiquidityPool) (vols : List ℚ), pool.fee_tier = 5/100 →
      (∀ v ∈ vols, 700 ≤ v) → (runAgent pool vols).fee_tier = 5/100) ∧
    (∀ (pool : LiquidityPool) (vols : List ℚ), pool.fee_tier = 1 →
      (∀ v ∈ vols, v < 700) → (runAgent pool vols).fee_tier = 1) := by
  constructor
  · intro pool vols
    induction vols generalizing pool with
    | nil => intro hfee _; exact hfee
    | cons v vs ih =>
        intro hfee hhigh
        rw [runAgent_cons]
        refine ih _ ?_ (fun u hu => hhigh u (List.mem_cons_of_mem v hu))
        have hge : v ≥ threshold := by
          simpa [threshold] using hhigh v (List.mem_cons_self v vs)
        simp [ai_agentStep, hge, hfee]
  · intro pool vols
    induction vols generalizing pool with
    | nil => intro hfee _; exact hfee
    | cons v vs ih =>
        intro hfee hlowv
        rw [runAgent_cons]
        refine ih _ ?_ (fun u hu => hlowv u (List.mem_cons_of_mem v hu))
        have hlt : ¬ (v ≥ threshold) := by
          simp only [threshold, ge_iff_le, not_le]
          exact hlowv v (List.mem_cons_self v vs)
        simp [ai_agentStep, hlt, hfee]

/-- Witness for C7: a fee at the floor stays there over two high-volume
steps, and a fee at the ceiling stays there over two low-volume steps. -/
theorem C7_clamp_idempotent_witness :
    (runAgent poolFloor [800, 900]).fee_tier = 5/100 ∧
    (runAgent poolCeil [100, 200]).fee_tier = 1 :=
  ⟨C7_clamp_idempotent.1 poolFloor [800, 900] (by norm_num [poolFloor, samplePool])
      (by intro v hv; fin_cases hv <;> norm_num),
   C7_clamp_idempotent.2 poolCeil [100, 200] (by norm_num [poolCeil, samplePool])
      (by intro v hv; fin_cases hv <;> norm_num)⟩

/-- C8: the engine is deterministic: two invocations on field-by-field
equal pool states with equal `avg_volume` return equal
`(new_fee, new_range)` pairs and produce field-by-field equal states. -/
theorem C8_deterministic (p1 p2 : LiquidityPool) (v1 v2 : ℚ)
    (hta : p1.token_a = p2.token_a) (htb : p1.token_b = p2.token_b)
    (hra : p1.reserve_a = p2.reserve_a) (hrb : p1.reserve_b = p2.reserve_b)
    (hsp : p1.spot_price = p2.spot_price) (hft : p1.fee_tier = p2.fee_tier)
    (hpr : p1.price_range = p2.price_range)
    (htl : p1.total_liquidity = p2.total_liquidity)
    (hpi : p1.pair_id = p2.pair_id) (hv : v1 = v2) :
    (ai_agentStep p1 v1).new_fee = (ai_agentStep p2 v2).new_fee ∧
    (ai_agentStep p1 v1).new_range = (ai_agentStep p2 v2).new_range ∧
    (ai_agentStep p1 v1).pool = (ai_agentStep p2 v2).pool := by
  have hp : p1 = p2 := by
    cases p1; cases p2
    simp_all
  subst hp; subst hv
  exact ⟨rfl, rfl, rfl⟩

/-- Witness for C8 at two identical invocations on the sample pool. -/
theorem C8_deterministic_witness :
    (ai_agentStep samplePool 1000).new_fee = (ai_agentStep samplePool 1000).new_fee ∧
    (ai_agentStep samplePool 1000).new_range = (ai_agentStep samplePool 1000).new_range ∧
    (ai_agentStep samplePool 1000).pool = (ai_agentStep samplePool 1000).pool :=
  C8_deterministic samplePool samplePool 1000 1000
    rfl rfl rfl rfl rfl rfl rfl rfl rfl rfl

/-- C9: on an empty volume series, or one lacking a `volume` column, the
engine internally substitutes `avg_volume = 5,000,000` and therefore takes
the high-volume branch: the fee decreases, the reserves are scaled by 1.1
(truncated), and the range widens. -/
theorem C9_internal_fallback (pool : LiquidityPool) (volume_data : VolumeData)
    (h : volume_data.isEmpty = true ∨ volume_data.volume = none) :
    volume_data.avgVolume = 5000000 ∧
    (ai_agent pool volume_data).new_fee = max (5/100) (pool.fee_tier - 1/10) ∧
    (ai_agent pool volume_data).pool.reserve_a
        = pyInt ((pool.reserve_a : ℚ) * (11/10)) ∧
    (ai_agent pool volume_data).pool.reserve_b
        = pyInt ((pool.reserve_b : ℚ) * (11/10)) ∧
    (ai_agent pool volume_data).new_range
        = (pool.price_range.1 * (95/100), pool.price_range.2 * (105/100)) := by
  have havg : volume_data.avgVolume = 5000000 := by
    rcases h with h | h
    · unfold VolumeData.avgVolume
      rw [h]
    · unfold VolumeData.avgVolume
      rw [h]
      rcases volume_data.isEmpty with _ | _ <;> rfl
  have hge : volume_data.avgVolume ≥ threshold := by
    rw [havg]; norm_num [threshold]
  refine ⟨havg, ?_, ?_, ?_, ?_⟩ <;> simp [ai_agent, ai_agentStep, hge]

/-- Witness for C9: a DataFrame with rows but no `volume` column. -/
theorem C9_internal_fallback_witness :
    (VolumeData.mk false none).avgVolume = 5000000 ∧
    (ai_agent samplePool (VolumeData.mk false none)).new_fee
        = max (5/100) (samplePool.fee_tier - 1/10) ∧
    (ai_agent samplePool (VolumeData.mk false none)).pool.reserve_a
        = pyInt ((samplePool.reserve_a : ℚ) * (11/10)) ∧
    (ai_agent samplePool (VolumeData.mk false none)).pool.reserve_b
        = pyInt ((samplePool.reserve_b : ℚ) * (11/10)) ∧
    (ai_agent samplePool (VolumeData.mk false none)).new_range
        = (samplePool.price_range.1 * (95/100), samplePool.price_range.2 * (105/100)) :=
  C9_internal_fallback samplePool (VolumeData.mk false none) (Or.inr rfl)

/-- C10: the constructor always sets `fee_tier = 0.3` and `price_range =
(spot × 0.95, spot × 1.05)`, so whenever the spot price is positive a
fresh state satisfies `0.05 ≤ fee_tier ≤ 1.0` and `lower < upper`. -/
theorem C10_init_state (pool_data : PoolData) :
    (LiquidityPool.init pool_data).fee_tier = 3/10 ∧
    (LiquidityPool.init pool_data).price_range
      = (pool_data.spot_price * (95/100), pool_data.spot_price * (105/100)) ∧
    (0 < pool_data.spot_price →
      5/100 ≤ (LiquidityPool.init pool_data).fee_tier ∧
      (LiquidityPool.init pool_data).fee_tier ≤ 1 ∧
      (LiquidityPool.init pool_data).price_range.1
        < (LiquidityPool.init pool_data).price_range.2) := by
  refine ⟨rfl, rfl, fun hpos => ⟨by norm_num [LiquidityPool.init],
    by norm_num [LiquidityPool.init], ?_⟩⟩
  simp only [LiquidityPool.init]
  nlinarith

/-- Witness for C10 on a concrete snapshot with spot price 5. -/
theorem C10_init_state_witness :
    (LiquidityPool.init samplePoolData).fee_tier = 3/10 ∧
    (LiquidityPool.init samplePoolData).price_range
      = (samplePoolData.spot_price * (95/100), samplePoolData.spot_price * (105/100)) ∧
    (5/100 ≤ (LiquidityPool.init samplePoolData).fee_tier ∧
      (LiquidityPool.init samplePoolData).fee_tier ≤ 1 ∧
      (LiquidityPool.init samplePoolData).price_range.1
        < (LiquidityPool.init samplePoolData).price_range.2) :=
  ⟨(C10_init_state samplePoolData).1, (C10_init_state samplePoolData).2.1,
    (C10_init_state samplePoolData).2.2 (by norm_num [samplePoolData])⟩

end Veaxflow
